import Mathlib

/-!
Verification of the pattern-detection and forecast-spreadsheet logic of the
cfo-forecast repository.

The TypeScript sources are shallowly embedded:

* JavaScript double-precision numbers are modelled by exact rationals `ℚ`,
  except where `NaN`/infinities can arise; the `JNum` type below models an
  IEEE value as either a finite rational, `nan`, or a signed infinity, and
  the arithmetic helpers below mirror the JavaScript semantics of the
  operations the embedded code performs.
* `Date` values (the code converts ISO strings with `new Date(...)` and
  immediately takes `.getTime()`) are modelled by their millisecond
  timestamps as rationals.
* The two identical classifiers
  `app/dashboard/[clientId]/pattern-review/page.tsx` (`analyzePattern`) and
  `app/dashboard/[clientId]/pattern-review-v2/page.tsx` (`analyzePattern`)
  are embedded as `analyzePattern` and `analyzePatternV2`.
-/

namespace Cfo

/-- A JavaScript number: a finite (exact) rational, `NaN`, or ±infinity. -/
inductive JNum where
  | num (q : ℚ)
  | nan
  | inf
  | ninf
deriving DecidableEq

namespace JNum

/-- JavaScript division `a / b` (`0/0 = NaN`, `x/0 = ±Infinity` for `x ≠ 0`,
`x/±Infinity = 0`, `NaN` propagates). -/
def jdiv : JNum → JNum → JNum
  | nan, _ => nan
  | _, nan => nan
  | num a, num b =>
      if b = 0 then (if a = 0 then nan else if 0 < a then inf else ninf)
      else num (a / b)
  | inf, num b => if b < 0 then ninf else inf
  | ninf, num b => if b < 0 then inf else ninf
  | num _, inf => num 0
  | num _, ninf => num 0
  | inf, inf => nan
  | inf, ninf => nan
  | ninf, inf => nan
  | ninf, ninf => nan

/-- JavaScript multiplication (`±Infinity * 0 = NaN`, `NaN` propagates). -/
def jmul : JNum → JNum → JNum
  | nan, _ => nan
  | _, nan => nan
  | num a, num b => num (a * b)
  | inf, num b => if b = 0 then nan else if 0 < b then inf else ninf
  | num a, inf => if a = 0 then nan else if 0 < a then inf else ninf
  | ninf, num b => if b = 0 then nan else if 0 < b then ninf else inf
  | num a, ninf => if a = 0 then nan else if 0 < a then ninf else inf
  | inf, inf => inf
  | inf, ninf => ninf
  | ninf, inf => ninf
  | ninf, ninf => inf

/-- JavaScript subtraction (`∞ - ∞ = NaN`, `NaN` propagates). -/
def jsub : JNum → JNum → JNum
  | nan, _ => nan
  | _, nan => nan
  | num a, num b => num (a - b)
  | num _, inf => ninf
  | num _, ninf => inf
  | inf, num _ => inf
  | ninf, num _ => ninf
  | inf, inf => nan
  | ninf, ninf => nan
  | inf, ninf => inf
  | ninf, inf => ninf

/-- JavaScript `Math.min` (returns `NaN` if either argument is `NaN`). -/
def jmin : JNum → JNum → JNum
  | nan, _ => nan
  | _, nan => nan
  | num a, num b => num (min a b)
  | ninf, _ => ninf
  | _, ninf => ninf
  | inf, x => x
  | x, inf => x

/-- JavaScript `Math.max` (returns `NaN` if either argument is `NaN`). -/
def jmax : JNum → JNum → JNum
  | nan, _ => nan
  | _, nan => nan
  | num a, num b => num (max a b)
  | inf, _ => inf
  | _, inf => inf
  | ninf, x => x
  | x, ninf => x

/-- JavaScript `Math.round` on a finite rational: half-way cases round
toward `+∞`, i.e. `⌊q + 1/2⌋`. -/
def jroundQ (q : ℚ) : ℚ := ((⌊q + 1/2⌋ : ℤ) : ℚ)

/-- JavaScript `Math.round` (`NaN` and infinities pass through). -/
def jround : JNum → JNum
  | nan => nan
  | inf => inf
  | ninf => ninf
  | num q => num (jroundQ q)

end JNum

/-- A row of the `transactions` table as the classifier pages read it:
`transaction_date` is the millisecond timestamp of the ISO date string and
`amount` the signed amount. -/
structure Transaction where
  transaction_date : ℚ
  amount : ℚ
deriving DecidableEq

/-- Milliseconds per day, the divisor `1000 * 60 * 60 * 24` of the source. -/
def msPerDay : ℚ := 86400000

/-- `transactions.filter(tx => new Date(tx.transaction_date) >= ninetyDaysAgo)`
where `ninetyDaysAgo = new Date(today.getTime() - 90*24*60*60*1000)`. -/
def recentOf (today : ℚ) (transactions : List Transaction) : List Transaction :=
  transactions.filter (fun tx => today - 90 * msPerDay ≤ tx.transaction_date)

/-- The `intervals` loop: for consecutive list entries, the absolute
difference of their timestamps in days
(`Math.abs(date1.getTime() - date2.getTime()) / (1000*60*60*24)`). -/
def intervalsOf : List Transaction → List ℚ
  | t1 :: t2 :: rest =>
      |t1.transaction_date - t2.transaction_date| / msPerDay :: intervalsOf (t2 :: rest)
  | _ => []

/-- `list.reduce((a, b) => a + b, 0) / list.length`, the repeated
sum-then-divide idiom of the source. -/
def listAvg (l : List ℚ) : ℚ := l.sum / l.length

/-- The `if/else if` chain assigning `pattern` and `interval` from
`avgInterval` (identical in both classifier pages).  Note that a gap above
100 days leaves the initial `pattern = 'irregular'; interval = 0`
assignments in place. -/
def classifyGap (g : ℚ) : String × ℚ :=
  if g ≤ 1.5 then ("daily", 1)
  else if g ≤ 8 then ("weekly", 7)
  else if g ≤ 17 then ("bi-weekly", 14)
  else if g ≤ 35 then ("monthly", 30)
  else if g ≤ 100 then ("quarterly", 90)
  else ("irregular", 0)

/-- The confidence pipeline shared verbatim by both classifier pages:
`Math.round(Math.max(0, Math.min(100, 100 - (avgVariance / avgInterval * 100))))`
with `avgVariance` the mean absolute deviation of the intervals from their
mean.  The division is the only place a non-finite value can arise (when
`avgInterval = 0`, forcing `avgVariance = 0`, so `0/0 = NaN`). -/
def confidenceOf (intervals : List ℚ) : JNum :=
  let avgInterval := listAvg intervals
  let avgVariance := listAvg (intervals.map (fun i => |i - avgInterval|))
  JNum.jround (JNum.jmax (JNum.num 0) (JNum.jmin (JNum.num 100)
    (JNum.jsub (JNum.num 100)
      (JNum.jmul (JNum.jdiv (JNum.num avgVariance) (JNum.num avgInterval)) (JNum.num 100)))))

/-- `transactions[0]?.amount || 0`: the first amount, with `0` both for an
empty list and for a (falsy) zero amount. -/
def headAmount (transactions : List Transaction) : ℚ :=
  ((transactions.head?).map Transaction.amount).getD 0

/-- `recentTxs[0].transaction_date` (the branch using it has
`recentTxs.length ≥ 2`). -/
def headDate (transactions : List Transaction) : ℚ :=
  ((transactions.head?).map Transaction.transaction_date).getD 0

/-- Result record of `analyzePattern` in
`pattern-review/page.tsx` (`next_date` is absent — `none` — on the two
insufficient-data early returns). -/
structure PatternResult where
  detected_pattern : String
  detected_interval : ℚ
  detected_amount : ℚ
  confidence : JNum
  next_date : Option ℚ
deriving DecidableEq

/-- `analyzePattern` of `app/dashboard/[clientId]/pattern-review/page.tsx`,
with the wall-clock `new Date()` made an explicit `today` parameter. -/
def analyzePattern (today : ℚ) (transactions : List Transaction) : PatternResult :=
  if transactions.length < 2 then
    { detected_pattern := "irregular"
      detected_interval := 0
      detected_amount := headAmount transactions
      confidence := JNum.num 0
      next_date := none }
  else
    let recentTxs := recentOf today transactions
    if recentTxs.length < 2 then
      { detected_pattern := "irregular"
        detected_interval := 0
        detected_amount := headAmount transactions
        confidence := JNum.num 0
        next_date := none }
    else
      let intervals := intervalsOf recentTxs
      let avgInterval := listAvg intervals
      let pi := classifyGap avgInterval
      let amounts := recentTxs.map (fun tx => |tx.amount|)
      { detected_pattern := pi.1
        detected_interval := pi.2
        detected_amount := listAvg amounts
        confidence := confidenceOf intervals
        next_date := some (headDate recentTxs + pi.2 * msPerDay) }

/-- Result record of `analyzePattern` in `pattern-review-v2/page.tsx`
(different field names; `nextDate` defaults to today's date on the
insufficient-data returns). -/
structure PatternResultV2 where
  pattern : String
  interval : ℚ
  avgAmount : ℚ
  confidence : JNum
  nextDate : ℚ
deriving DecidableEq

/-- `analyzePattern` of `app/dashboard/[clientId]/pattern-review-v2/page.tsx`;
identical classification logic, the second early return takes
`Math.abs(transactions[0]?.amount || 0)`. -/
def analyzePatternV2 (today : ℚ) (transactions : List Transaction) : PatternResultV2 :=
  if transactions.length < 2 then
    { pattern := "irregular"
      interval := 0
      avgAmount := headAmount transactions
      confidence := JNum.num 0
      nextDate := today }
  else
    let recentTxs := recentOf today transactions
    if recentTxs.length < 2 then
      { pattern := "irregular"
        interval := 0
        avgAmount := |headAmount transactions|
        confidence := JNum.num 0
        nextDate := today }
    else
      let intervals := intervalsOf recentTxs
      let avgInterval := listAvg intervals
      let pi := classifyGap avgInterval
      let amounts := recentTxs.map (fun tx => |tx.amount|)
      { pattern := pi.1
        interval := pi.2
        avgAmount := listAvg amounts
        confidence := confidenceOf intervals
        nextDate := headDate recentTxs + pi.2 * msPerDay }

/-- Insert into an ascending list (spec-side helper for the median). -/
def insertAsc (x : ℚ) : List ℚ → List ℚ
  | [] => [x]
  | y :: ys => if x ≤ y then x :: y :: ys else y :: insertAsc x ys

/-- Ascending insertion sort (spec-side helper for the median). -/
def sortAsc : List ℚ → List ℚ
  | [] => []
  | x :: xs => insertAsc x (sortAsc xs)

/-- Modelled from the spec (for the refinement comparison of the
classification statistic only): "Compute the median gap" — the middle
element of the sorted gap list, or the mean of the two middle elements for
an even length.  The source classifiers compute no median; this definition
exists to state what the spec asks for. -/
def medianSpec (l : List ℚ) : ℚ :=
  let s := sortAsc l
  if l.length % 2 = 1 then s.getD (l.length / 2) 0
  else (s.getD (l.length / 2 - 1) 0 + s.getD (l.length / 2) 0) / 2

/-!
### Forecast spreadsheet (`components/ForecastSpreadsheet.tsx`)

The `rowData` memo builds the grid rows; the claims concern the cash rows:
the per-week amount taken from `forecast_data`
(`data?.is_actual ? data.actual : data?.forecasted || 0`), the category
totals, and the `Ending Cash` row, whose week `0` starts from the fetched
beginning balance and whose later weeks chain on the previous ending
balance.  Nested partial JavaScript objects
(`forecast_data[date]?.[category]?.[subcategory]`) are modelled as a
function to `Option`.
-/

/-- One `forecast_data` leaf: `{forecasted, actual, variance, is_actual}`
(variance is never read by the spreadsheet rows, so it is not modelled). -/
structure Cell where
  forecasted : ℚ
  actual : ℚ
  is_actual : Bool
deriving DecidableEq

/-- A `vendor_groups` row as the spreadsheet reads it. -/
structure VendorGroup where
  id : Nat
  category : String
  subcategory : String
  is_inflow : Bool
deriving DecidableEq

/-- The dashboard payload fetched from the API: `forecast_data` keyed by
period start date, category and subcategory, and `cash_balances` keyed by
period start date (only `beginning_balance` is read). -/
structure Dashboard where
  forecast_data : String → String → String → Option Cell
  cash_balances : String → Option ℚ

/-- `data?.is_actual ? data.actual : data?.forecasted || 0`. -/
def cellAmount : Option Cell → ℚ
  | none => 0
  | some c => if c.is_actual then c.actual else c.forecasted

/-- A category total row: the `forEach` accumulating
`total += data?.is_actual ? data.actual : data?.forecasted || 0` over the
vendor groups of one category. -/
def totalCat (d : Dashboard) (groups : List VendorGroup) (cat : String) (date : String) : ℚ :=
  ((groups.filter (fun vg => vg.category = cat)).map
    (fun vg => cellAmount (d.forecast_data date vg.category vg.subcategory))).sum

/-- `netOperatingRow`: `revenue + outflows` (outflow amounts are signed). -/
def netOperating (d : Dashboard) (groups : List VendorGroup) (date : String) : ℚ :=
  totalCat d groups "revenue" date + totalCat d groups "operating" date

/-- `netFinancingRow`: the financing category total. -/
def netFinancing (d : Dashboard) (groups : List VendorGroup) (date : String) : ℚ :=
  totalCat d groups "financing" date

/-- `cashBalanceRow[period.start_date] = balance?.beginning_balance || 0`. -/
def beginBal (d : Dashboard) (date : String) : ℚ :=
  (d.cash_balances date).getD 0

/-- The `Ending Cash` loop body from a given beginning balance:
`endingCashRow[p] = beginningCash + netOperating + netFinancing`, where the
next week's `beginningCash` is the balance just computed. -/
def endingCashFrom (d : Dashboard) (groups : List VendorGroup) (b : ℚ) :
    List String → List ℚ
  | [] => []
  | p :: ps =>
      (b + netOperating d groups p + netFinancing d groups p) ::
        endingCashFrom d groups (b + netOperating d groups p + netFinancing d groups p) ps

/-- The `Ending Cash` row: week `0` starts from
`cashBalanceRow[periods[0].start_date]`, later weeks from
`endingCashRow[periods[index-1].start_date]`. -/
def endingCash (d : Dashboard) (groups : List VendorGroup) : List String → List ℚ
  | [] => []
  | p :: ps => endingCashFrom d groups (beginBal d p) (p :: ps)

/-- The claim-side net of one week: the sum of the per-group amounts over
all vendor groups, actual where reconciled and forecast otherwise. -/
def weekNet (d : Dashboard) (groups : List VendorGroup) (date : String) : ℚ :=
  (groups.map (fun vg => cellAmount (d.forecast_data date vg.category vg.subcategory))).sum

/-!
### Forecast records, regeneration and cell edits

The spreadsheet's `updateCellValue` posts to the `/api/forecast/cell-update`
endpoint and forecast regeneration posts to `/api/forecast/generate`; the
backend serving these routes is not among the sources under review (only
its schema, documentation and these callers are), so the two mutators are
modelled from the spec below.
-/

/-- A `forecast_records` row (schema `database/forecast_schema.sql`):
key `(vendor_group, date)` per client, amounts, and the
`is_locked` flag set by reconciliation. -/
structure ForecastRecord where
  vendor_group : Nat
  date : String
  forecasted_amount : ℚ
  actual_amount : Option ℚ
  variance_amount : Option ℚ
  is_locked : Bool
deriving DecidableEq

/-- Records at one `(vendor_group, date)` key. -/
def atKey (l : List ForecastRecord) (vg : Nat) (date : String) : List ForecastRecord :=
  l.filter (fun r => r.vendor_group = vg ∧ r.date = date)

/-- Modelled from the spec: the forecast regeneration backend (the
`/api/forecast/generate` route invoked by the spreadsheet's "Generate
Forecasts" button) is not under the reviewed sources.  Per the spec,
"generated records never overlap an existing is_locked=true record for the
same (vendor_group, date); regeneration must skip or merge-preserve locked
dates rather than overwrite them": regeneration keeps every locked existing
record verbatim and admits a generated record only when no locked record
occupies its key; unlocked existing records are superseded by the new
batch. -/
def regenerate (existing generated : List ForecastRecord) : List ForecastRecord :=
  existing.filter (fun r => r.is_locked) ++
    generated.filter (fun g =>
      ¬ existing.any (fun r => r.is_locked ∧ r.vendor_group = g.vendor_group ∧ r.date = g.date))

/-- Modelled from the spec: the `/api/forecast/cell-update` endpoint called
by `updateCellValue` is not under the reviewed sources.  Per the spec, an
edit rewrites the forecasted amount of the targeted record only when it is
not locked ("attempting to regenerate over a locked record — refused"); a
locked record is preserved unchanged. -/
def updateCell (records : List ForecastRecord) (vg : Nat) (date : String) (amount : ℚ) :
    List ForecastRecord :=
  records.map (fun r =>
    if r.vendor_group = vg ∧ r.date = date ∧ r.is_locked = false then
      { r with forecasted_amount := amount }
    else r)

/-!
### Concrete inputs used by counterexamples and witnesses

Timestamps are millisecond offsets from the analysis date `today = 0`; all
dates lie inside the 90-day window unless noted.
-/

/-- Gaps `[1, 1, 28]` days: median `1` but mean `10`. -/
def txMedian : List Transaction :=
  [⟨0, 100⟩, ⟨-msPerDay, 100⟩, ⟨-2 * msPerDay, 100⟩, ⟨-30 * msPerDay, 100⟩]

/-- Exactly two in-window transactions, seven days apart. -/
def txTwoWeekly : List Transaction := [⟨0, 100⟩, ⟨-7 * msPerDay, 100⟩]

/-- Two in-window transactions 125 days apart (one post-dated; the window
filter has no upper bound, so a future-dated row passes it). -/
def txWideGap : List Transaction := [⟨40 * msPerDay, 100⟩, ⟨-85 * msPerDay, 100⟩]

/-- Three monthly amounts, most recent first: `$44k, $42k, $40k`. -/
def txAmounts : List Transaction :=
  [⟨0, 44000⟩, ⟨-30 * msPerDay, 42000⟩, ⟨-60 * msPerDay, 40000⟩]

/-- A single in-window transaction. -/
def txSingle : List Transaction := [⟨0, 5⟩]

/-- Two transactions on the same date. -/
def txSameDay : List Transaction := [⟨0, 50⟩, ⟨0, 70⟩]

/-- A perfectly weekly history around timestamp `0`. -/
def txRegular : List Transaction :=
  [⟨0, 100⟩, ⟨-7 * msPerDay, 100⟩, ⟨-14 * msPerDay, 100⟩]

/-- A regular history lying entirely more than 90 days before `today = 0`. -/
def txOld : List Transaction := [⟨-100 * msPerDay, 5⟩, ⟨-95 * msPerDay, 5⟩]

/-- Concrete dashboard for the C7 witness: one revenue group, constant
reconciled cells worth `20`, beginning balance `1000`. -/
def demoDashboard : Dashboard where
  forecast_data := fun _ _ _ => some { forecasted := 10, actual := 20, is_actual := true }
  cash_balances := fun _ => some 1000

/-- Vendor groups for the C7 witness. -/
def demoGroups : List VendorGroup := [⟨1, "revenue", "operating_revenue", true⟩]

/-- Records for the C8 witness: one locked, one unlocked. -/
def demoRecords : List ForecastRecord :=
  [{ vendor_group := 1, date := "2025-08-04", forecasted_amount := 100,
     actual_amount := some 95, variance_amount := some (-5), is_locked := true },
   { vendor_group := 2, date := "2025-08-04", forecasted_amount := 50,
     actual_amount := none, variance_amount := none, is_locked := false }]

/-- A regeneration batch colliding with the locked key. -/
def demoGenerated : List ForecastRecord :=
  [{ vendor_group := 1, date := "2025-08-04", forecasted_amount := 999,
     actual_amount := none, variance_amount := none, is_locked := false }]

/-!
### Helper lemmas
-/

lemma recentOf_length_le (today : ℚ) (txs : List Transaction) :
    (recentOf today txs).length ≤ txs.length :=
  List.length_filter_le _ _

/-- Branch characterization: with fewer than two in-window transactions the
classifier returns the insufficient-data record (either early return). -/
lemma analyzePattern_insufficient (today : ℚ) (txs : List Transaction)
    (h : (recentOf today txs).length < 2) :
    analyzePattern today txs =
      { detected_pattern := "irregular", detected_interval := 0,
        detected_amount := headAmount txs, confidence := JNum.num 0, next_date := none } := by
  by_cases h1 : txs.length < 2 <;> simp [analyzePattern, h1, h]

lemma analyzePatternV2_insufficient (today : ℚ) (txs : List Transaction)
    (h : (recentOf today txs).length < 2) :
    (analyzePatternV2 today txs).pattern = "irregular" ∧
      (analyzePatternV2 today txs).confidence = JNum.num 0 := by
  by_cases h1 : txs.length < 2 <;> simp [analyzePatternV2, h1, h]

/-- Branch characterization: with at least two in-window transactions the
classifier runs the interval pipeline. -/
lemma analyzePattern_main (today : ℚ) (txs : List Transaction)
    (h : 2 ≤ (recentOf today txs).length) :
    analyzePattern today txs =
      { detected_pattern := (classifyGap (listAvg (intervalsOf (recentOf today txs)))).1
        detected_interval := (classifyGap (listAvg (intervalsOf (recentOf today txs)))).2
        detected_amount := listAvg ((recentOf today txs).map (fun tx => |tx.amount|))
        confidence := confidenceOf (intervalsOf (recentOf today txs))
        next_date := some (headDate (recentOf today txs) +
          (classifyGap (listAvg (intervalsOf (recentOf today txs)))).2 * msPerDay) } := by
  have h1 : ¬ txs.length < 2 := by
    have := recentOf_length_le today txs
    omega
  have h2 : ¬ (recentOf today txs).length < 2 := by omega
  simp [analyzePattern, h1, h2]

lemma analyzePatternV2_main (today : ℚ) (txs : List Transaction)
    (h : 2 ≤ (recentOf today txs).length) :
    analyzePatternV2 today txs =
      { pattern := (classifyGap (listAvg (intervalsOf (recentOf today txs)))).1
        interval := (classifyGap (listAvg (intervalsOf (recentOf today txs)))).2
        avgAmount := listAvg ((recentOf today txs).map (fun tx => |tx.amount|))
        confidence := confidenceOf (intervalsOf (recentOf today txs))
        nextDate := headDate (recentOf today txs) +
          (classifyGap (listAvg (intervalsOf (recentOf today txs)))).2 * msPerDay } := by
  have h1 : ¬ txs.length < 2 := by
    have := recentOf_length_le today txs
    omega
  have h2 : ¬ (recentOf today txs).length < 2 := by omega
  simp [analyzePatternV2, h1, h2]

/-- When the mean interval is nonzero the confidence pipeline stays finite
and yields the clamped, rounded score. -/
lemma confidenceOf_of_avg_ne_zero (intervals : List ℚ) (h : listAvg intervals ≠ 0) :
    confidenceOf intervals =
      JNum.num (JNum.jroundQ (max 0 (min 100
        (100 - listAvg (intervals.map (fun i => |i - listAvg intervals|)) /
          listAvg intervals * 100)))) := by
  simp [confidenceOf, JNum.jdiv, JNum.jmul, JNum.jsub, JNum.jmin, JNum.jmax, JNum.jround, h]

/-- The clamped, rounded score lies between `0` and `100`. -/
lemma jroundQ_clamp_bounds (x : ℚ) :
    0 ≤ JNum.jroundQ (max 0 (min 100 x)) ∧ JNum.jroundQ (max 0 (min 100 x)) ≤ 100 := by
  have h0 : (0 : ℚ) ≤ max 0 (min 100 x) := le_max_left _ _
  have h100 : max 0 (min 100 x) ≤ 100 :=
    max_le (by norm_num) (min_le_left _ _)
  constructor
  · have : (0 : ℤ) ≤ ⌊max 0 (min 100 x) + 1/2⌋ := by
      rw [Int.le_floor]
      push_cast
      linarith
    unfold JNum.jroundQ
    exact_mod_cast this
  · have : ⌊max 0 (min 100 x) + 1/2⌋ ≤ (100 : ℤ) := by
      rw [Int.floor_le_iff]
      push_cast
      linarith
    unfold JNum.jroundQ
    exact_mod_cast this

/-!
### Claims
-/

/-- C1 (counterexample): the classifier does not use the median gap.  On the
gap list `[1, 1, 28]` the median is `1` (`daily` bucket) but the code
classifies by the mean `10` and returns `bi-weekly`. -/
theorem claim_C1_counterexample :
    (analyzePattern 0 txMedian).detected_pattern = "bi-weekly" ∧
      (classifyGap (medianSpec (intervalsOf (recentOf 0 txMedian)))).1 = "daily" ∧
      (analyzePattern 0 txMedian).detected_pattern ≠
        (classifyGap (medianSpec (intervalsOf (recentOf 0 txMedian)))).1 := by
  have h1 : (analyzePattern 0 txMedian).detected_pattern = "bi-weekly" := by
    norm_num [analyzePattern, recentOf, txMedian, msPerDay, List.filter, intervalsOf,
      listAvg, classifyGap]
  have h2 : (classifyGap (medianSpec (intervalsOf (recentOf 0 txMedian)))).1 = "daily" := by
    norm_num [recentOf, txMedian, msPerDay, List.filter, intervalsOf, medianSpec,
      sortAsc, insertAsc, classifyGap]
  exact ⟨h1, h2, by rw [h1, h2]; decide⟩

/-- C1 (amended): whenever the classifier branch runs (at least two
in-window transactions), the frequency class is selected by the **mean** of
the day-gaps between consecutive listed transactions, in both classifier
pages. -/
theorem claim_C1_mean_gap_selects_frequency (today : ℚ) (txs : List Transaction)
    (h : 2 ≤ (recentOf today txs).length) :
    (analyzePattern today txs).detected_pattern =
      (classifyGap (listAvg (intervalsOf (recentOf today txs)))).1 ∧
    (analyzePatternV2 today txs).pattern =
      (classifyGap (listAvg (intervalsOf (recentOf today txs)))).1 := by
  rw [analyzePattern_main _ _ h, analyzePatternV2_main _ _ h]
  exact ⟨rfl, rfl⟩

/-- C1 witness: the amended statement at `today = 0`, `txMedian`. -/
theorem claim_C1_witness :
    (analyzePattern 0 txMedian).detected_pattern =
      (classifyGap (listAvg (intervalsOf (recentOf 0 txMedian)))).1 :=
  (claim_C1_mean_gap_selects_frequency 0 txMedian
    (by norm_num [recentOf, txMedian, msPerDay, List.filter])).1

/-- C2 (counterexample): with exactly `2` transactions inside the 90-day
window the claim demands `irregular`/confidence `0`, but the code's
threshold is `< 2`, so two transactions seven days apart classify as
`weekly` with confidence `100`. -/
theorem claim_C2_counterexample :
    txTwoWeekly.length = 2 ∧
      recentOf 0 txTwoWeekly = txTwoWeekly ∧
      (analyzePattern 0 txTwoWeekly).detected_pattern = "weekly" ∧
      (analyzePattern 0 txTwoWeekly).confidence = JNum.num 100 ∧
      (analyzePatternV2 0 txTwoWeekly).pattern = "weekly" ∧
      ("weekly" : String) ≠ "irregular" := by
  refine ⟨rfl, ?_, ?_, ?_, ?_, by decide⟩ <;>
    norm_num [analyzePattern, analyzePatternV2, recentOf, txTwoWeekly, msPerDay,
      List.filter, intervalsOf, listAvg, classifyGap, confidenceOf, JNum.jdiv,
      JNum.jmul, JNum.jsub, JNum.jmin, JNum.jmax, JNum.jround, JNum.jroundQ]

/-- C2 (amended): only with fewer than `2` transactions inside the 90-day
window does classification return frequency `irregular` with confidence `0`
regardless of the gap values (both classifier pages). -/
theorem claim_C2_fewer_than_two_irregular (today : ℚ) (txs : List Transaction)
    (h : (recentOf today txs).length < 2) :
    (analyzePattern today txs).detected_pattern = "irregular" ∧
      (analyzePattern today txs).confidence = JNum.num 0 ∧
      (analyzePatternV2 today txs).pattern = "irregular" ∧
      (analyzePatternV2 today txs).confidence = JNum.num 0 := by
  rw [analyzePattern_insufficient _ _ h]
  exact ⟨rfl, rfl, (analyzePatternV2_insufficient _ _ h).1,
    (analyzePatternV2_insufficient _ _ h).2⟩

/-- C2 witness: the amended statement at a single in-window transaction. -/
theorem claim_C2_witness :
    (analyzePattern 0 txSingle).detected_pattern = "irregular" ∧
      (analyzePattern 0 txSingle).confidence = JNum.num 0 ∧
      (analyzePatternV2 0 txSingle).pattern = "irregular" ∧
      (analyzePatternV2 0 txSingle).confidence = JNum.num 0 :=
  claim_C2_fewer_than_two_irregular 0 txSingle
    (by norm_num [recentOf, txSingle, msPerDay, List.filter])

/-- C3 (counterexample): a mean gap above `100` days yields `irregular`, not
`annual` — the `if/else if` chain has no annual bucket, so the initial
`irregular` assignment survives.  (The 125-day gap needs a post-dated
transaction, which the lower-bound-only window filter admits.) -/
theorem claim_C3_counterexample :
    listAvg (intervalsOf (recentOf 0 txWideGap)) = 125 ∧
      (100 : ℚ) < 125 ∧
      (analyzePattern 0 txWideGap).detected_pattern = "irregular" ∧
      ("irregular" : String) ≠ "annual" := by
  refine ⟨?_, by norm_num, ?_, by decide⟩ <;>
    norm_num [analyzePattern, recentOf, txWideGap, msPerDay, List.filter, intervalsOf,
      listAvg, classifyGap]

/-- C3 (amended): the bucket map is total and mutually exclusive with the
claimed cut-points, except that a gap statistic above `100` days maps to
`irregular` (interval `0`), not `annual`. -/
theorem claim_C3_gap_buckets (g : ℚ) :
    (g ≤ 1.5 → classifyGap g = ("daily", 1)) ∧
      (1.5 < g → g ≤ 8 → classifyGap g = ("weekly", 7)) ∧
      (8 < g → g ≤ 17 → classifyGap g = ("bi-weekly", 14)) ∧
      (17 < g → g ≤ 35 → classifyGap g = ("monthly", 30)) ∧
      (35 < g → g ≤ 100 → classifyGap g = ("quarterly", 90)) ∧
      (100 < g → classifyGap g = ("irregular", 0)) := by
  unfold classifyGap
  refine ⟨?_, ?_, ?_, ?_, ?_, ?_⟩ <;> intros <;>
    (split_ifs <;> first | rfl | linarith)

/-- C3 witness: the bucket map at the concrete gap `120`. -/
theorem claim_C3_witness : classifyGap 120 = ("irregular", 0) :=
  (claim_C3_gap_buckets 120).2.2.2.2.2 (by norm_num)

/-- C4 (counterexample): the reported confidence is on a 0–100 scale, not in
`[0,1]`: two transactions seven days apart report confidence `100`. -/
theorem claim_C4_counterexample :
    (analyzePattern 0 txTwoWeekly).confidence = JNum.num 100 ∧
      ¬ ((100 : ℚ) ≤ 1) := by
  refine ⟨?_, by norm_num⟩
  norm_num [analyzePattern, recentOf, txTwoWeekly, msPerDay, List.filter, intervalsOf,
    listAvg, classifyGap, confidenceOf, JNum.jdiv, JNum.jmul, JNum.jsub, JNum.jmin,
    JNum.jmax, JNum.jround, JNum.jroundQ]

/-- C4 (amended): whenever the classifier branch runs and the mean gap is
nonzero, the confidence equals
`round(clamp₀¹⁰⁰(100 · (1 − MAD/mean)))` — the mean absolute deviation of
the gaps from their **mean** (not median), on a 0–100 scale, with no
completeness scaling — and the reported value lies in `[0, 100]` (both
classifier pages). -/
theorem claim_C4_confidence_formula (today : ℚ) (txs : List Transaction)
    (h2 : 2 ≤ (recentOf today txs).length)
    (h0 : listAvg (intervalsOf (recentOf today txs)) ≠ 0) :
    ∃ c : ℚ,
      (analyzePattern today txs).confidence = JNum.num c ∧
      (analyzePatternV2 today txs).confidence = JNum.num c ∧
      c = JNum.jroundQ (max 0 (min 100
        (100 - listAvg ((intervalsOf (recentOf today txs)).map
            (fun i => |i - listAvg (intervalsOf (recentOf today txs))|)) /
          listAvg (intervalsOf (recentOf today txs)) * 100))) ∧
      0 ≤ c ∧ c ≤ 100 := by
  rw [analyzePattern_main _ _ h2, analyzePatternV2_main _ _ h2]
  rw [show (confidenceOf (intervalsOf (recentOf today txs))) = _ from
    confidenceOf_of_avg_ne_zero _ h0]
  exact ⟨_, rfl, rfl, rfl, (jroundQ_clamp_bounds _).1, (jroundQ_clamp_bounds _).2⟩

/-- C4 witness: the amended statement at `today = 0`, `txTwoWeekly`. -/
theorem claim_C4_witness :
    ∃ c : ℚ,
      (analyzePattern 0 txTwoWeekly).confidence = JNum.num c ∧
      (analyzePatternV2 0 txTwoWeekly).confidence = JNum.num c ∧
      c = JNum.jroundQ (max 0 (min 100
        (100 - listAvg ((intervalsOf (recentOf 0 txTwoWeekly)).map
            (fun i => |i - listAvg (intervalsOf (recentOf 0 txTwoWeekly))|)) /
          listAvg (intervalsOf (recentOf 0 txTwoWeekly)) * 100))) ∧
      0 ≤ c ∧ c ≤ 100 :=
  claim_C4_confidence_formula 0 txTwoWeekly
    (by norm_num [recentOf, txTwoWeekly, msPerDay, List.filter])
    (by norm_num [recentOf, txTwoWeekly, msPerDay, List.filter, intervalsOf, listAvg])

/-- C5 (counterexample): the monthly history `$44k, $42k, $40k` (most recent
first) forecasts the simple mean `$42k`, not the claimed weighted `$42.5k`:
no 2:1:1 month weighting exists in the code. -/
theorem claim_C5_counterexample :
    (analyzePattern 0 txAmounts).detected_amount = 42000 ∧
      (analyzePattern 0 txAmounts).detected_amount ≠ 42500 := by
  have h : (analyzePattern 0 txAmounts).detected_amount = 42000 := by
    norm_num [analyzePattern, recentOf, txAmounts, msPerDay, List.filter, intervalsOf,
      listAvg, classifyGap]
  exact ⟨h, by rw [h]; norm_num⟩

/-- C5 (amended): whenever the classifier branch runs, the detected forecast
amount is the simple arithmetic mean of the absolute amounts of the
in-window transactions — no month partitioning or 2:1:1 weighting, and no
fewer-than-3-months fallback distinction (both classifier pages). -/
theorem claim_C5_amount_is_simple_mean (today : ℚ) (txs : List Transaction)
    (h : 2 ≤ (recentOf today txs).length) :
    (analyzePattern today txs).detected_amount =
      listAvg ((recentOf today txs).map (fun tx => |tx.amount|)) ∧
    (analyzePatternV2 today txs).avgAmount =
      listAvg ((recentOf today txs).map (fun tx => |tx.amount|)) := by
  rw [analyzePattern_main _ _ h, analyzePatternV2_main _ _ h]
  exact ⟨rfl, rfl⟩

/-- C5 witness: the amended statement at `today = 0`, `txAmounts`. -/
theorem claim_C5_witness :
    (analyzePattern 0 txAmounts).detected_amount =
      listAvg ((recentOf 0 txAmounts).map (fun tx => |tx.amount|)) :=
  (claim_C5_amount_is_simple_mean 0 txAmounts
    (by norm_num [recentOf, txAmounts, msPerDay, List.filter])).1

/-- C6 (confirmed): with `0` or `1` transactions both analyzers return the
insufficient-data record — frequency `irregular`, confidence `0` — as a
plain value of the total function, before the window filter or the interval
pipeline is ever reached; no error is raised (the embedded functions are
total and return the record directly from the first early return). -/
theorem claim_C6_insufficient_data (today : ℚ) (txs : List Transaction)
    (h : txs.length < 2) :
    analyzePattern today txs =
      { detected_pattern := "irregular", detected_interval := 0,
        detected_amount := headAmount txs, confidence := JNum.num 0, next_date := none } ∧
    analyzePatternV2 today txs =
      { pattern := "irregular", interval := 0, avgAmount := headAmount txs,
        confidence := JNum.num 0, nextDate := today } := by
  simp [analyzePattern, analyzePatternV2, h]

/-- C6 witness: the statement at the empty transaction list. -/
theorem claim_C6_witness :
    analyzePattern 0 [] =
      { detected_pattern := "irregular", detected_interval := 0,
        detected_amount := headAmount [], confidence := JNum.num 0, next_date := none } ∧
    analyzePatternV2 0 [] =
      { pattern := "irregular", interval := 0, avgAmount := headAmount [],
        confidence := JNum.num 0, nextDate := 0 } :=
  claim_C6_insufficient_data 0 [] (by norm_num)

/-- C9 (confirmed): two same-dated in-window transactions make the mean
interval `0`, the JavaScript division `0/0` produce `NaN`, and the `NaN`
survives `Math.min`, `Math.max` and `Math.round` into the returned record's
confidence field (both classifier pages).  `JNum.nan` models the IEEE
`NaN`. -/
theorem claim_C9_nan_confidence :
    2 ≤ (recentOf 0 txSameDay).length ∧
      listAvg (intervalsOf (recentOf 0 txSameDay)) = 0 ∧
      (analyzePattern 0 txSameDay).confidence = JNum.nan ∧
      (analyzePatternV2 0 txSameDay).confidence = JNum.nan := by
  refine ⟨?_, ?_, ?_, ?_⟩ <;>
    norm_num [analyzePattern, analyzePatternV2, recentOf, txSameDay, msPerDay,
      List.filter, intervalsOf, listAvg, classifyGap, confidenceOf, JNum.jdiv,
      JNum.jmul, JNum.jsub, JNum.jmin, JNum.jmax, JNum.jround]

/-- C10 (confirmed): the classifier depends on the wall-clock date it is
anchored to.  The same perfectly weekly list is `weekly` when analyzed at
its own epoch and `irregular` with confidence `0` when analyzed 200 days
later; in general any list lying entirely more than 90 days before the
analysis date is classified `irregular`/`0` regardless of its regularity. -/
theorem claim_C10_wall_clock_dependence :
    ((analyzePattern 0 txRegular).detected_pattern = "weekly" ∧
      (analyzePattern (200 * msPerDay) txRegular).detected_pattern = "irregular" ∧
      (analyzePattern (200 * msPerDay) txRegular).confidence = JNum.num 0) ∧
    (∀ (today : ℚ) (txs : List Transaction), 2 ≤ txs.length →
      (∀ tx ∈ txs, tx.transaction_date < today - 90 * msPerDay) →
      (analyzePattern today txs).detected_pattern = "irregular" ∧
      (analyzePattern today txs).confidence = JNum.num 0) := by
  constructor
  · refine ⟨?_, ?_, ?_⟩ <;>
      norm_num [analyzePattern, recentOf, txRegular, msPerDay, List.filter, intervalsOf,
        listAvg, classifyGap, confidenceOf, JNum.jdiv, JNum.jmul, JNum.jsub, JNum.jmin,
        JNum.jmax, JNum.jround, JNum.jroundQ]
  · intro today txs _ hold
    have hnil : recentOf today txs = [] := by
      rw [recentOf, List.filter_eq_nil_iff]
      intro tx htx
      simp only [decide_eq_true_eq, not_le]
      exact hold tx htx
    have h2 : (recentOf today txs).length < 2 := by rw [hnil]; norm_num
    rw [analyzePattern_insufficient _ _ h2]
    exact ⟨rfl, rfl⟩

/-!
### Cash-balance chain lemmas (C7)
-/

lemma endingCashFrom_length (d : Dashboard) (g : List VendorGroup) :
    ∀ (ps : List String) (b : ℚ), (endingCashFrom d g b ps).length = ps.length
  | [], _ => rfl
  | _ :: ps, b => by
    simp only [endingCashFrom, List.length_cons, endingCashFrom_length d g ps]

lemma endingCash_length (d : Dashboard) (g : List VendorGroup) (ps : List String) :
    (endingCash d g ps).length = ps.length := by
  cases ps with
  | nil => rfl
  | cons p rest => simp [endingCash, endingCashFrom_length]

/-- Splitting the week total: under the schema's three categories, the
revenue + operating + financing totals add up to the sum over all vendor
groups. -/
lemma net_split (d : Dashboard) (groups : List VendorGroup) (date : String)
    (hcat : ∀ vg ∈ groups, vg.category = "revenue" ∨ vg.category = "operating" ∨
      vg.category = "financing") :
    netOperating d groups date + netFinancing d groups date = weekNet d groups date := by
  induction groups with
  | nil => simp [netOperating, netFinancing, totalCat, weekNet]
  | cons vg rest ih =>
    have ih' := ih (fun x hx => hcat x (List.mem_cons_of_mem _ hx))
    simp only [netOperating, netFinancing, totalCat, weekNet] at ih' ⊢
    rcases hcat vg (List.mem_cons_self _ _) with h | h | h
    · have e1 : decide (vg.category = "revenue") = true := by rw [h]; decide
      have e2 : decide (vg.category = "operating") = false := by rw [h]; decide
      have e3 : decide (vg.category = "financing") = false := by rw [h]; decide
      simp only [List.filter_cons, e1, e2, e3, Bool.false_eq_true, eq_self_iff_true,
        if_true, if_false, List.map_cons, List.sum_cons]
      linarith
    · have e1 : decide (vg.category = "revenue") = false := by rw [h]; decide
      have e2 : decide (vg.category = "operating") = true := by rw [h]; decide
      have e3 : decide (vg.category = "financing") = false := by rw [h]; decide
      simp only [List.filter_cons, e1, e2, e3, Bool.false_eq_true, eq_self_iff_true,
        if_true, if_false, List.map_cons, List.sum_cons]
      linarith
    · have e1 : decide (vg.category = "revenue") = false := by rw [h]; decide
      have e2 : decide (vg.category = "operating") = false := by rw [h]; decide
      have e3 : decide (vg.category = "financing") = true := by rw [h]; decide
      simp only [List.filter_cons, e1, e2, e3, Bool.false_eq_true, eq_self_iff_true,
        if_true, if_false, List.map_cons, List.sum_cons]
      linarith

/-- The `Ending Cash` recursion: each later entry is the previous entry plus
that week's operating and financing nets. -/
lemma endingCashFrom_chain (d : Dashboard) (g : List VendorGroup) :
    ∀ (ps : List String) (b : ℚ) (i : Nat), i + 1 < ps.length →
      (endingCashFrom d g b ps).getD (i + 1) 0 =
        (endingCashFrom d g b ps).getD i 0 +
          netOperating d g (ps.getD (i + 1) "") + netFinancing d g (ps.getD (i + 1) "")
  | [], _, i, h => by simp at h
  | p :: ps, b, 0, h => by
    cases ps with
    | nil => simp at h
    | cons q rest =>
      simp [endingCashFrom, List.getD_cons_succ, List.getD_cons_zero]
  | p :: ps, b, i + 1, h => by
    have h' : i + 1 < ps.length := by
      simpa [List.length_cons] using h
    simpa [endingCashFrom, List.getD_cons_succ] using
      endingCashFrom_chain d g ps (b + netOperating d g p + netFinancing d g p) i h'

/-- C7 (confirmed): the ending-cash row derives the balances in date order
from the fetched starting balance: it has one balance per forecast week, the
first week's ending balance is the starting (beginning) balance plus that
week's net — the sum over all vendor groups of the actual amount where the
record is reconciled (`is_actual`) and the forecast amount otherwise — and
every later week's ending balance is the previous week's ending balance
(used as its beginning balance) plus its own net.  The hypothesis restricts
vendor groups to the schema's three categories, which the grid sums. -/
theorem claim_C7_cash_balance_chain (d : Dashboard) (groups : List VendorGroup)
    (ps : List String)
    (hcat : ∀ vg ∈ groups, vg.category = "revenue" ∨ vg.category = "operating" ∨
      vg.category = "financing") :
    (endingCash d groups ps).length = ps.length ∧
    (∀ p rest, ps = p :: rest →
      (endingCash d groups ps).getD 0 0 = beginBal d p + weekNet d groups p) ∧
    (∀ i, i + 1 < ps.length →
      (endingCash d groups ps).getD (i + 1) 0 =
        (endingCash d groups ps).getD i 0 + weekNet d groups (ps.getD (i + 1) "")) := by
  refine ⟨endingCash_length d groups ps, ?_, ?_⟩
  · intro p rest hps
    subst hps
    have hs := net_split d groups p hcat
    calc (endingCash d groups (p :: rest)).getD 0 0
        = beginBal d p + netOperating d groups p + netFinancing d groups p := by
          simp [endingCash, endingCashFrom, List.getD_cons_zero]
      _ = beginBal d p + weekNet d groups p := by rw [add_assoc, hs]
  · intro i hi
    cases ps with
    | nil => simp at hi
    | cons p rest =>
      have hs := net_split d groups (((p :: rest)).getD (i + 1) "") hcat
      calc (endingCash d groups (p :: rest)).getD (i + 1) 0
          = (endingCash d groups (p :: rest)).getD i 0 +
              netOperating d groups ((p :: rest).getD (i + 1) "") +
              netFinancing d groups ((p :: rest).getD (i + 1) "") := by
            simpa [endingCash] using
              endingCashFrom_chain d groups (p :: rest) (beginBal d p) i hi
        _ = _ := by rw [add_assoc, hs]

/-- C7 witness: the chain property at a concrete two-week dashboard. -/
theorem claim_C7_witness :
    (endingCash demoDashboard demoGroups ["a", "b"]).getD 1 0 =
      (endingCash demoDashboard demoGroups ["a", "b"]).getD 0 0 +
        weekNet demoDashboard demoGroups "b" :=
  (claim_C7_cash_balance_chain demoDashboard demoGroups ["a", "b"]
      (by intro vg hvg; simp [demoGroups] at hvg; subst hvg; left; rfl)).2.2 0 (by norm_num)

/-!
### Locked-record frame lemmas (C8)
-/

lemma atKey_append (l₁ l₂ : List ForecastRecord) (vg : Nat) (date : String) :
    atKey (l₁ ++ l₂) vg date = atKey l₁ vg date ++ atKey l₂ vg date :=
  List.filter_append _ _

/-- C8 (confirmed against the spec model): neither forecast regeneration nor
a spreadsheet cell edit alters a locked record.  If the locked record `r` is
the unique record at its `(vendor_group, date)` key, regeneration leaves
exactly `r` at that key (so its forecasted amount, actual amount and
variance are unchanged and no generated record overwrites it), and a cell
edit maps every locked record to itself position by position. -/
theorem claim_C8_locked_records_preserved (existing generated : List ForecastRecord)
    (vg : Nat) (date : String) (amount : ℚ) :
    (∀ r : ForecastRecord, r.is_locked = true →
      atKey existing r.vendor_group r.date = [r] →
      atKey (regenerate existing generated) r.vendor_group r.date = [r]) ∧
    (∀ (i : Nat) (r : ForecastRecord), existing[i]? = some r → r.is_locked = true →
      (updateCell existing vg date amount)[i]? = some r) := by
  constructor
  · intro r hlock hkey
    have hrmem : r ∈ existing := by
      have hr : r ∈ atKey existing r.vendor_group r.date := by
        rw [hkey]; exact List.mem_singleton_self r
      exact List.mem_of_mem_filter hr
    have h1 : atKey (existing.filter (fun e => e.is_locked)) r.vendor_group r.date = [r] := by
      rw [atKey, List.filter_comm, ← atKey, hkey]
      simp [hlock]
    have h2 : atKey (generated.filter (fun g =>
        ¬ existing.any (fun e => e.is_locked ∧ e.vendor_group = g.vendor_group ∧
          e.date = g.date))) r.vendor_group r.date = [] := by
      rw [atKey, List.filter_eq_nil_iff]
      intro a ha
      rcases List.mem_filter.mp ha with ⟨-, hcond⟩
      simp only [decide_eq_true_eq] at hcond ⊢
      intro hkeya
      exact hcond (List.any_eq_true.mpr
        ⟨r, hrmem, by simp [hlock, hkeya.1.symm, hkeya.2.symm]⟩)
    rw [regenerate, atKey_append, h1, h2, List.append_nil]
  · intro i r hi hlock
    rw [updateCell, List.getElem?_map, hi]
    simp [hlock]

/-- C8 witness: the frame property at the concrete record lists. -/
theorem claim_C8_witness :
    atKey (regenerate demoRecords demoGenerated) 1 "2025-08-04" =
      [{ vendor_group := 1, date := "2025-08-04", forecasted_amount := 100,
         actual_amount := some 95, variance_amount := some (-5), is_locked := true }] :=
  (claim_C8_locked_records_preserved demoRecords demoGenerated 1 "2025-08-04" 0).1
    { vendor_group := 1, date := "2025-08-04", forecasted_amount := 100,
      actual_amount := some 95, variance_amount := some (-5), is_locked := true }
    rfl
    (by norm_num [atKey, demoRecords, List.filter])

/-- C10 witness: the universal part at `today = 0` and a list lying wholly
more than 90 days in the past. -/
theorem claim_C10_witness :
    (analyzePattern 0 txOld).detected_pattern = "irregular" ∧
      (analyzePattern 0 txOld).confidence = JNum.num 0 :=
  claim_C10_wall_clock_dependence.2 0 txOld (by norm_num [txOld])
    (by
      intro tx htx
      simp only [txOld, List.mem_cons, List.not_mem_nil, or_false] at htx
      rcases htx with h | h <;> rw [h] <;> norm_num [msPerDay])

end Cfo
